import Mathlib

/-!
Shallow embedding of the procedural galaxy generator
(src/libprocu-galaxy/src/lib/libprocu-galaxy.hpp, namespace procu) and proofs
about it.

Modelling conventions:
* C++ float/double values are modelled as exact rationals (Rat); float
  literals are taken at their decimal value.
* Transcendental library functions (sqrt, exp, pow with non-integer exponent,
  log) and the constant M_PI have no exact rational meaning; they are
  abstracted into a record of function parameters (RealFns) over which all
  theorems quantify.
* The pcg32 random generator is an external library (pcg32.h is not part of
  this repository). Modelled from the spec: a SampleStream is a pseudo-random
  generator instance whose i-th draw after seeding with seed s is a fixed
  total function of (s, i); nextFloat/nextDouble draw rationals (intended
  range [0,1)), nextUInt b draws a natural below b.  An arbitrary stream
  family (PcgAlgo) together with a current (seed, draw index) pair makes up
  a generator state; theorems quantify over all stream families, which
  covers every behaviour of the concrete pcg32.
* uint64 seed arithmetic is Nat arithmetic reduced modulo 2^64.
* std::map is modelled as an association list with keyed lookup, membership
  test and insert-or-replace; map iteration visits exactly the stored pairs.
-/

namespace Procu

/-- Abstraction of the real-valued library functions and constants used by the
generator: exp, sqrt, pow (for non-integer exponents), and M_PI. -/
structure RealFns where
  rexp : ℚ → ℚ
  rsqrt : ℚ → ℚ
  rpow : ℚ → ℚ → ℚ
  rpi : ℚ

/-- Stream family of a pcg32 generator: the value of each draw kind as a
function of the current seed and the number of draws made since seeding.
Modelled from the spec (pcg32.h is external to the repository). -/
structure PcgAlgo where
  floats : Nat → Nat → ℚ
  doubles : Nat → Nat → ℚ
  uints : Nat → Nat → Nat

/-- State of a pcg32 generator instance: its stream family, the seed it was
last seeded with, and how many draws were made since. -/
structure Pcg32 where
  algo : PcgAlgo
  seed : Nat
  idx : Nat

def Pcg32.reseed (r : Pcg32) (s : Nat) : Pcg32 :=
  { r with seed := s, idx := 0 }

def Pcg32.nextFloat (r : Pcg32) : ℚ × Pcg32 :=
  (r.algo.floats r.seed r.idx, { r with idx := r.idx + 1 })

def Pcg32.nextDouble (r : Pcg32) : ℚ × Pcg32 :=
  (r.algo.doubles r.seed r.idx, { r with idx := r.idx + 1 })

def Pcg32.nextUInt (r : Pcg32) (bound : Nat) : Nat × Pcg32 :=
  (r.algo.uints r.seed r.idx % bound, { r with idx := r.idx + 1 })

/-! Constants of the cosmic universe (file scope globals in the source). -/

def G : ℚ := 6.67384e-11
def gEarth : ℚ := 9.81
def au2km : ℚ := 1.49597871e8
def m2au : ℚ := 6.68458712e-12
def Rsol : ℚ := 696342.0
def Rearth : ℚ := 6371.0
def Mearth : ℚ := 5.972e24
def Lsol : ℚ := 3.84e26
def Lsigma : ℚ := 5.67e-8
def yearEarth : ℚ := 31558149.5

/-! Association-list model of std::map. -/

/-- Lookup with a default (the read of map[k] when k need not be present). -/
def mapGetD {β : Type} (m : List (String × β)) (k : String) (d : β) : β :=
  match m.find? (fun q => q.1 == k) with
  | some q => q.2
  | none => d

/-- Key membership, the count(k) != 0 test of std::map. -/
def mapContains {β : Type} (m : List (String × β)) (k : String) : Bool :=
  (m.find? (fun q => q.1 == k)).isSome

/-- Insert-or-replace, the map[k] = v assignment of std::map. -/
def mapInsert {β : Type} (m : List (String × β)) (k : String) (v : β) :
    List (String × β) :=
  match m with
  | [] => [(k, v)]
  | q :: rest => if q.1 == k then (k, v) :: rest else q :: mapInsert rest k v

/-- Insert-or-replace for Nat-keyed maps (the systems catalog). -/
def natMapInsert {β : Type} (m : List (Nat × β)) (k : Nat) (v : β) :
    List (Nat × β) :=
  match m with
  | [] => [(k, v)]
  | q :: rest => if q.1 == k then (k, v) :: rest else q :: natMapInsert rest k v

/-- Sum of the stored values of a composition map. -/
def compSum (m : List (String × ℚ)) : ℚ :=
  (m.map Prod.snd).sum

/-! Random distribution functions. -/

/-- Loop body of getRndCdfIdx: idx is set to the current position before the
break test, so the last position survives when no bound matches. -/
def getRndCdfIdxAux (rn : ℚ) : Nat → List ℚ → Nat
  | i, [] => i
  | i, [_] => i
  | i, ub :: rest => if rn ≤ ub then i else getRndCdfIdxAux rn (i + 1) rest

/-- Random index from a non-linear cumulative distribution function. -/
def getRndCdfIdx (rn : ℚ) (cdf : List ℚ) : Nat :=
  getRndCdfIdxAux rn 0 cdf

/-! MathUtil distributions. -/

/-- Normal distribution value at point x. -/
def normalDistribution (F : RealFns) (x mu sigma : ℚ) : ℚ :=
  (1 / (sigma * F.rsqrt (2 * F.rpi))) * F.rexp (-((x - mu) ^ 2) / (2 * sigma ^ 2))

/-- Inverse exponential distribution value at point x. -/
def inverseExpDistribution (F : RealFns) (x skew : ℚ) : ℚ :=
  F.rexp (-(F.rpow x skew))

/-! Atmosphere model: element tables. -/

/-- More frequent elements on top. -/
def componentOrder : List String :=
  ["CO2", "H2", "N2", "O2", "He", "Ar", "CH4", "Ne", "Kr", "Xe"]

/-- Atmosphere element composition probability (maximum volume share). -/
def elementProb : List (String × ℚ) :=
  [("CO2", 0.965), ("H2", 0.963), ("N2", 0.780), ("O2", 0.210), ("He", 0.102),
   ("Ar", 0.016), ("CH4", 0.015), ("Ne", 0.0001), ("Kr", 0.0001), ("Xe", 0.0001)]

/-- Maximum breathable partial pressure per gas. -/
def ppMaxGas : List (String × ℚ) :=
  [("He", 2934.0), ("Ne", 66.0), ("H2", 16.5), ("N2", 5.94), ("O2", 1.6),
   ("Ar", 1.12), ("Kr", 0.12), ("CO2", 0.015), ("Xe", 0.009), ("CH4", 0.001)]

/-! Atmosphere data structure and functions. -/

/-- Universe Atmosphere data structure; radius 0 means the atmosphere does
not exist for the parent planet. -/
structure UniverseAtmosphere where
  radius : ℚ := 0
  pressure : ℚ := 0
  composition : List (String × ℚ) := []
  deriving DecidableEq

def UniverseAtmosphere.exists (a : UniverseAtmosphere) : Prop :=
  a.radius > 0

/-- Loop body of atmosphereHabitability: one pass over the composition,
zeroing the probability on any failed check.  The whole composition map is
also consulted for the oxygen-presence check on every iteration, exactly as
in the source. -/
def atmosphereHabitabilityAux (composition : List (String × ℚ)) (pressure : ℚ) :
    ℚ → List (String × ℚ) → ℚ
  | prob, [] => prob
  | prob, (gas, val) :: rest =>
    let ppGas := val * pressure
    let p1 := if ppGas > mapGetD ppMaxGas gas 0 then 0 else prob
    let p2 := if gas = "O2" ∧ ppGas < 0.16 then 0 else p1
    let p3 := if mapContains composition "O2" = false then 0 else p2
    atmosphereHabitabilityAux composition pressure p3 rest

/-- Atmosphere habitability percentage for oxygen breathers.  The source
declares pressure with default argument 1.0. -/
def atmosphereHabitability (composition : List (String × ℚ)) (pressure : ℚ) : ℚ :=
  atmosphereHabitabilityAux composition pressure 1 composition

/-- Loop body of createComposition.  On each run a component index range is
chosen, a component drawn, a random part of its maximal share added, capped
by the remaining volume; the branch on an already-present component
overwrites its stored share (as the source does).  Fuel bounds the number of
iterations of the while loop. -/
def createCompositionAux (rnd : Pcg32) (composition : List (String × ℚ))
    (part : ℚ) (run : Nat) : Nat → List (String × ℚ) × ℚ × Pcg32
  | 0 => (composition, part, rnd)
  | fuel + 1 =>
    if part < 1 then
      let minCnt : Nat := if run = 0 then 0 else if run = 1 then 2 else 4
      let maxCnt : Nat := if run = 0 then 2 else if run = 1 then 4 else elementProb.length - 1
      let w := rnd.nextUInt (maxCnt - minCnt)
      let which := minCnt + w.1
      let comp := componentOrder.getD which ""
      let maxPart := mapGetD elementProb comp 0
      let u := w.2.nextFloat
      let variationPart := maxPart * 0.6 + u.1 * (maxPart * 0.4)
      let partToAdd := min variationPart (1 - part)
      let part2 := part + partToAdd
      let composition2 :=
        if mapContains composition comp then mapInsert composition comp partToAdd
        else mapInsert composition comp (mapGetD composition comp 0 + partToAdd)
      createCompositionAux u.2 composition2 part2 (run + 1) fuel
    else (composition, part, rnd)

/-- Creates atmosphere composition from typical elements; the generator is
passed by value in the source, so the caller's generator state is unchanged. -/
def createComposition (fuel : Nat) (composition : List (String × ℚ))
    (rnd : Pcg32) : List (String × ℚ) :=
  (createCompositionAux rnd composition 0 0 fuel).1

/-! Planet model: periodic table of planets, 18 types in a 6 x 3 matrix. -/

def Mearth_min : List ℚ :=
  [0.0, 0.1, 0.5, 2.0, 10.0, 50.0,
   0.0, 0.1, 0.5, 2.0, 10.0, 50.0,
   0.0, 0.1, 0.5, 2.0, 10.0, 50.0]

def Mearth_max : List ℚ :=
  [0.1, 0.5, 2.0, 10.0, 50.0, 1e3,
   0.1, 0.5, 2.0, 10.0, 50.0, 1e3,
   0.1, 0.5, 2.0, 10.0, 50.0, 1e3]

def Rearth_min : List ℚ :=
  [0.03, 0.4, 0.8, 1.25, 2.6, 6.0,
   0.03, 0.4, 0.8, 1.25, 2.6, 6.0,
   0.03, 0.4, 0.8, 1.25, 2.6, 6.0]

def Rearth_max : List ℚ :=
  [0.4, 0.8, 1.25, 2.6, 6.0, 1e3,
   0.4, 0.8, 1.25, 2.6, 6.0, 1e3,
   0.4, 0.8, 1.25, 2.6, 6.0, 1e3]

/-- Gas giants always have a thick gas atmosphere. -/
def atmosphereProbabilityMax : List ℚ :=
  [0.0, 0.001, 0.001, 0.001, 1.0, 1.0,
   0.0, 0.02, 0.05, 0.01, 1.0, 1.0,
   0.0, 0.0, 0.0, 0.0, 1.0, 1.0]

def atmospherePressureMin : List ℚ :=
  [0.0, 0.1, 0.5, 0.5, 10.0, 1e2,
   0.0, 0.1, 0.5, 0.5, 10.0, 1e2,
   0.0, 0.1, 0.5, 0.5, 10.0, 1e2]

def atmospherePressureMax : List ℚ :=
  [0.001, 0.5, 2.0, 3.0, 1e3, 2e3,
   0.001, 0.5, 2.0, 3.0, 1e3, 2e3,
   0.001, 0.5, 2.0, 3.0, 1e3, 2e3]

/-- ProcU model for a planet (numeric fields used by the generation chain). -/
structure UniversePlanet where
  seed : Nat := 0
  position : List ℚ := [0, 0, 0]
  starDistance : ℚ := 0
  isInHz : Bool := false
  mass : ℚ := 0
  mu : ℚ := 0
  temperature : ℚ := 0
  equatorTemperature : ℚ := 0
  poleTemperature : ℚ := 0
  typeIndex : Int := -1
  radius : ℚ := 1000
  day : ℚ := 0
  year : ℚ := 0
  probTemp : ℚ := 0
  probGrav : ℚ := 0
  atmosphere : UniverseAtmosphere := {}
  deriving DecidableEq

/-- Planet median surface temperature in Kelvin. -/
def planetTemperature (F : RealFns) (Lstar distAu : ℚ) : ℚ :=
  let Aabs_Arad : ℚ := 0.25
  let albedo : ℚ := 0
  let eta : ℚ := 1
  let L := Lstar * Lsol
  F.rpow (Aabs_Arad * (L * (1 - albedo) /
    (4 * F.rpi * Lsigma * eta * F.rpow (distAu * au2km * 1e3) 2))) 0.25

/-- Mass-category loop of getPlanetTypeIndex: the last index of the first
table row whose (min, max) band strictly contains the relative mass wins. -/
def massIdxFold (mRel : ℚ) : Int :=
  (List.range 6).foldl
    (fun cur i =>
      if mRel > Mearth_min.getD i 0 ∧ mRel < Mearth_max.getD i 0 then (i : Int) else cur)
    0

/-- Planet index from the periodic table of planets: temperature zone index
(0, 6 or 12) plus mass index (0..5). -/
def getPlanetTypeIndex (planet : UniversePlanet) (hzMinAu hzMaxAu : ℚ) : Int :=
  let iZoneIdx : Int :=
    if planet.starDistance > hzMaxAu then 12
    else if planet.starDistance < hzMinAu then 0
    else 6
  let iMassIdx : Int := massIdxFold (planet.mass / Mearth)
  iZoneIdx + iMassIdx

def getPeriodicTypeColumn (typeIndex : Int) : Int :=
  if typeIndex > -1 then typeIndex % 6 else -1

/-- Creates an atmosphere based on the per-type probability: an empty
structure (radius 0) when the draw exceeds the type's maximum probability;
otherwise a radius slightly above the planet radius for columns up to 3 and
equal to it for gas giants, an interpolated pressure, and a generated
composition (the generator is copied into the composition call, so the
returned generator state is the one after the pressure draw). -/
def createAtmosphere (fuel : Nat) (typeIndex : Int) (planetRadius : ℚ)
    (rnd : Pcg32) : UniverseAtmosphere × Pcg32 :=
  let f0 := rnd.nextFloat
  if f0.1 > atmosphereProbabilityMax.getD typeIndex.toNat 0 then (({} : UniverseAtmosphere), f0.2)
  else
    let rr :=
      if getPeriodicTypeColumn typeIndex ≤ 3 then
        let f1 := f0.2.nextFloat
        (planetRadius * (1.01 + f1.1 * 0.09), f1.2)
      else (planetRadius, f0.2)
    let f2 := rr.2.nextFloat
    let pressure := atmospherePressureMin.getD typeIndex.toNat 0 +
      f2.1 * (atmospherePressureMax.getD typeIndex.toNat 0 -
        atmospherePressureMin.getD typeIndex.toNat 0)
    let composition := createComposition fuel [] f2.2
    ({ radius := rr.1, pressure := pressure, composition := composition }, f2.2)

/-- Estimates the temperature and gravity habitability probabilities and
stores them on the planet. -/
def calcPlanetHabitability (F : RealFns) (planet : UniversePlanet) : UniversePlanet :=
  let probTemp : ℚ :=
    if planet.temperature < 223 ∨ planet.temperature > 323 then 0
    else 1 - |293 - planet.temperature| / 70
  let grel : ℚ :=
    if planet.mass ≠ 0 ∧ planet.radius ≠ 0 then
      (G * planet.mass / F.rpow (planet.radius * 1e3) 2) / gEarth
    else 0
  let probGrav : ℚ :=
    if grel < 0.2 ∨ grel > 3 then 0
    else 1 - |1 - grel| / 2
  { planet with probTemp := probTemp, probGrav := probGrav }

/-- Overall planet habitability; the atmosphere term is evaluated at the
default pressure argument 1.0 of atmosphereHabitability. -/
def getPlanetHabitability (F : RealFns) (planet0 : UniversePlanet) : ℚ :=
  let planet := calcPlanetHabitability F planet0
  if planet.isInHz = false then 0
  else if planet.atmosphere.radius > 0 then
    planet.probTemp * planet.probGrav * atmosphereHabitability planet.atmosphere.composition 1
  else
    planet.probTemp * planet.probGrav

/-! Star model: type tables (24 star types) and functions. -/

/-- Cumulative distribution function of star type probability. -/
def starTypeProbability : List ℚ :=
  [0.015152, 0.030303, 0.045455,
   0.060606, 0.075758, 0.090909,
   0.106061, 0.121212, 0.136364,
   0.166667, 0.242424, 0.378788,
   0.530303, 0.681818, 0.833333,
   0.924242, 0.969697, 0.984848,
   0.992424, 0.993939, 0.995454,
   0.996970, 0.998485, 1.000000]

/-- Minimum radius in Rsol per star type. -/
def minRadius : List ℚ :=
  [30.0, 30.0, 30.0, 30.0, 25.0, 11.0,
   20.0, 15.0, 10.0,
   6.6, 1.8, 1.4,
   1.15, 0.96, 0.70, 0.08,
   0.08, 0.008, 0.08, 0.08,
   0.01, 0.01, 0.01, 0.01]

/-- Maximum radius in Rsol per star type. -/
def maxRadius : List ℚ :=
  [2000.0, 1900.0, 1800.0, 1700.0, 1600.0, 1.0,
   200.0, 50.0, 30.0,
   30.0, 6.6, 1.8,
   1.40, 1.15, 0.96, 0.62,
   0.15, 0.1, 0.14, 0.1,
   0.1, 0.1, 0.1, 0.1]

/-- Minimum mass in Msol per star type. -/
def minMass : List ℚ :=
  [10.0, 5.0, 4.0, 3.0, 2.0, 7.0,
   30.0, 20.0, 3.0,
   16.0, 2.1, 1.4,
   1.04, 0.8, 0.08, 0.075,
   0.005, 0.005, 0.0005, 0.005,
   0.005, 0.005, 0.005, 0.005]

/-- Maximum mass in Msol per star type. -/
def maxMass : List ℚ :=
  [100.0, 30.0, 20.0, 11.0, 40.0, 40.0,
   100.0, 70.0, 15.0,
   200.0, 24000.0, 2.1,
   1.4, 1.04, 0.45, 0.6,
   0.08, 0.008, 0.02, 0.008,
   0.08, 0.08, 0.08, 0.08]

/-- Minimum effective temperature in Kelvin per star type. -/
def minTemperature : List ℚ :=
  [9700.0, 8300.0, 6150.0, 5050.0, 3750.0, 2950.0,
   4870.0, 3780.0, 2800.0,
   3780.0, 11400.0, 7920.0,
   6300.0, 5440.0, 4000.0, 2600.0,
   1500.0, 800.0, 500.0, 500.0,
   500.0, 500.0, 500.0, 500.0]

/-- Maximum effective temperature in Kelvin per star type. -/
def maxTemperature : List ℚ :=
  [21000.0, 9400.0, 7500.0, 5800.0, 4900.0, 3690.0,
   5010.0, 4720.0, 3660.0,
   54000.0, 29200.0, 9600.0,
   7350.0, 6050.0, 5240.0, 3750.0,
   2600.0, 1400.0, 1000.0, 800.0,
   800.0, 800.0, 800.0, 800.0]

/-- ProcU model for a star (numeric fields used by the generation chain). -/
structure UniverseStar where
  seed : Nat := 0
  typeIndex : Nat := 0
  mass : ℚ := 0
  luminosity : ℚ := 0
  temperature : ℚ := 0
  radius : ℚ := 0
  hzDistAu : List ℚ := []
  frostLimitAu : ℚ := 0
  planetsCount : Nat := 0
  axialRotation : ℚ := 0
  deriving DecidableEq

/-- Mass density for stars below and above the 150K frost limit: normal
distribution inside, inverse exponential distribution outside. -/
def getStarMassDensity (F : RealFns) (starMass frostLimitAu posAu : ℚ) : ℚ :=
  if posAu < frostLimitAu then
    4.2e24 * starMass * normalDistribution F posAu (frostLimitAu / 2) (frostLimitAu / 16)
  else
    8.0e26 * starMass * inverseExpDistribution F posAu 0.5

/-- Frost limit: the distance from the star where temperature reaches 150K. -/
def calcFrostLimit (F : RealFns) (lumStar : ℚ) : ℚ :=
  F.rsqrt (0.25 * lumStar * Lsol / (5.0625e8 * 4 * F.rpi * Lsigma)) * m2au

/-- Kopparapu coefficient tables for the habitable zone fluxes; index 0 is
unused. -/
def seffsunC : List ℚ :=
  [0, 1.7763, 1.0385, 1.0146, 0.3507, 0.3207, 0.2484, 0.5408]

def aCoeff : List ℚ :=
  [0, 1.4335e-4, 1.2456e-4, 8.1884e-5, 5.9578e-5, 5.4471e-5, 4.2588e-5, 4.4499e-5]

def bCoeff : List ℚ :=
  [0, 3.3954e-9, 1.4612e-8, 1.9394e-9, 1.6707e-9, 1.5275e-9, 1.1963e-9, 1.4065e-10]

def cCoeff : List ℚ :=
  [0, -7.6364e-12, -7.6345e-12, -4.3618e-12, -3.0058e-12, -2.7481e-12,
   -2.1709e-12, -2.2750e-12]

def dCoeff : List ℚ :=
  [0, -1.1950e-15, -1.7511e-15, -6.8260e-16, -5.1925e-16, -4.7474e-16,
   -3.8282e-16, -3.3509e-16]

/-- Stellar flux at habitable zone boundary i, floored at zero. -/
def sEffAt (F : RealFns) (tStar : ℚ) (i : Nat) : ℚ :=
  max (seffsunC.getD i 0 + aCoeff.getD i 0 * tStar + bCoeff.getD i 0 * F.rpow tStar 2 +
    cCoeff.getD i 0 * F.rpow tStar 3 + dCoeff.getD i 0 * F.rpow tStar 4) 0

/-- Habitable zone distance for boundary i: zero when the flux vanishes,
otherwise sqrt(luminosity / flux). -/
def hzDistAt (F : RealFns) (tEff lumStar : ℚ) (i : Nat) : ℚ :=
  if sEffAt F (tEff - 5780) i = 0 then 0
  else F.rsqrt (lumStar / sEffAt F (tEff - 5780) i)

/-- Habitable zone limit distances; entry 0 is unused and set to 0, entries
1 to 7 are the Kopparapu boundaries. -/
def habitableZoneComplete (F : RealFns) (tEff lumStar : ℚ) : List ℚ :=
  0 :: (List.range' 1 7).map (hzDistAt F tEff lumStar)

/-- Star luminosity from mass, four-regime mass-luminosity power law. -/
def calcLuminosity (F : RealFns) (mass : ℚ) : ℚ :=
  let massMSol := mass
  if massMSol < 0.43 then 0.23 * F.rpow massMSol 2.3
  else if massMSol ≥ 0.43 ∧ massMSol < 2 then F.rpow massMSol 4
  else if massMSol ≥ 2 ∧ massMSol < 20 then 1.5 * F.rpow massMSol 3.5
  else if massMSol ≥ 20 then 3200 * massMSol
  else 0

/-! System model and the ProcUGalaxy generator class. -/

/-- Multiple star system probability cumulative distribution function. -/
def starSystemMultiProbability : List ℚ :=
  [0.800, 0.900, 0.950, 0.975, 0.988, 0.996, 1.000]

/-- ProcU model for a star system (fields set by genSystem). -/
structure UniverseSystem where
  seed : Nat := 0
  position : List ℚ := []
  multiplicity : Int := 0
  deriving DecidableEq

/-- Configuration members of the ProcUGalaxy class. -/
structure GalaxyConfig where
  GALAXY_SIZE_LY : List ℚ := [1.0e4, 100.0, 1.0e4]
  SECTOR_SIZE_LY : ℚ := 10.0
  MAX_SYSTEMS : Int := 10
  MAX_STARS : Int := 3
  MAX_PLANETS : Int := 10
  deriving DecidableEq

/-- Planet seeds derived from a star seed (uint64 arithmetic modulo 2^64;
the source computes starSeed + 5432 + n*1e4 + n). -/
def getPlanetSeeds (uStarSeed : Nat) (howMany : Nat) : List Nat :=
  (List.range howMany).map (fun n => (uStarSeed + 5432 + n * 10000 + n) % 2 ^ 64)

/-- genSystem: constructs a fresh generator seeded with the system seed,
draws the position (three doubles) and the multiplicity (one float through
the multiplicity CDF), stores the system in the systems map (insert or
update, with no prior cache lookup) and returns it.  The final state of the
local generator is also returned; its draw index counts the stochastic
draws this call consumed. -/
def genSystem (cfg : GalaxyConfig) (A : PcgAlgo)
    (systems : List (Nat × UniverseSystem)) (systemSeed : Nat) :
    UniverseSystem × List (Nat × UniverseSystem) × Pcg32 :=
  let rng : Pcg32 := ⟨A, systemSeed, 0⟩
  let d1 := rng.nextDouble
  let d2 := d1.2.nextDouble
  let d3 := d2.2.nextDouble
  let f := d3.2.nextFloat
  let system : UniverseSystem :=
    { seed := systemSeed
      position := [d1.1 * cfg.SECTOR_SIZE_LY, d2.1 * cfg.SECTOR_SIZE_LY,
        d3.1 * cfg.SECTOR_SIZE_LY]
      multiplicity := (getRndCdfIdx f.1 starSystemMultiProbability : Int) + 1 }
  (system, natMapInsert systems systemSeed system, f.2)

/-- genStar: reseeds the member generator with the star seed, samples the
type index through the star type CDF, interpolates mass, radius and
temperature in the type's tabulated ranges, computes luminosity from mass,
the habitable zone, the frost limit and the axial rotation, and draws the
planet count uniformly below 8. -/
def genStar (F : RealFns) (cfg : GalaxyConfig) (rng0 : Pcg32) (starSeed : Nat) :
    UniverseStar × Pcg32 :=
  let rng := Pcg32.reseed rng0 starSeed
  let f0 := rng.nextFloat
  let idx := getRndCdfIdx f0.1 starTypeProbability
  let f1 := f0.2.nextFloat
  let mass := minMass.getD idx 0 + f1.1 * (maxMass.getD idx 0 - minMass.getD idx 0)
  let f2 := f1.2.nextFloat
  let radius := minRadius.getD idx 0 + f2.1 * (maxRadius.getD idx 0 - minRadius.getD idx 0)
  let luminosity := calcLuminosity F mass
  let f3 := f2.2.nextFloat
  let temperature := minTemperature.getD idx 0 +
    f3.1 * (maxTemperature.getD idx 0 - minTemperature.getD idx 0)
  let hz := habitableZoneComplete F temperature luminosity
  let frostLimitAu := calcFrostLimit F luminosity
  let axialRotation := F.rpi * radius * Rsol / mass
  let u0 := f3.2.nextUInt 8
  ({ seed := starSeed
     typeIndex := idx
     mass := mass
     radius := radius
     luminosity := luminosity
     temperature := temperature
     hzDistAu := hz
     frostLimitAu := frostLimitAu
     planetsCount := u0.1
     axialRotation := axialRotation }, u0.2)

/-- Distance selection step of the genPlanets loop: inward of the frost
limit the distance is the running lower limit plus 0.1 plus a random part of
the gap up to the frost limit; outward the previous distance is scaled by
1.5 plus a random float, and the lower limit is added if the product does
not pass it. -/
def nextPlanetDistance (rng : Pcg32) (frostLimitAu lowerLimitAu prevDistanceAu : ℚ) :
    ℚ × Pcg32 :=
  if lowerLimitAu < frostLimitAu then
    let u := rng.nextFloat
    (lowerLimitAu + 0.1 + u.1 * (frostLimitAu - lowerLimitAu), u.2)
  else
    let u := rng.nextFloat
    let d := prevDistanceAu * (1.5 + u.1)
    (if d ≤ lowerLimitAu then d + lowerLimitAu else d, u.2)

/-- genPlanet: reseeds the member generator with the planet seed; sets the
distance and habitable zone flag; accretes the mass of the band from the
running lower limit to upperLimit = 2 x distance - lowerLimit at the local
mass density; perturbs equator and pole temperatures; classifies the planet;
interpolates its radius; derives day and year; and generates the atmosphere.
Returns the planet, the new lower limit handed back through the by-reference
parameter, and the member generator state. -/
def genPlanet (F : RealFns) (fuel : Nat) (rng0 : Pcg32) (planetSeed : Nat)
    (star : UniverseStar) (planetDistanceAu lowerLimitAu : ℚ) :
    UniversePlanet × ℚ × Pcg32 :=
  let rng := Pcg32.reseed rng0 planetSeed
  let hz1 := star.hzDistAu.getD 1 0
  let hz5 := star.hzDistAu.getD 5 0
  let isInHz := decide (planetDistanceAu > hz1) && decide (planetDistanceAu < hz5)
  let upperLimitAu := planetDistanceAu + planetDistanceAu - lowerLimitAu
  let massDensity := getStarMassDensity F star.mass star.frostLimitAu planetDistanceAu
  let mass := massDensity * (upperLimitAu - lowerLimitAu)
  let mu := G * mass
  let temperature := planetTemperature F star.luminosity planetDistanceAu
  let f1 := rng.nextFloat
  let equatorTemperature := temperature + f1.1 * 50
  let f2 := f1.2.nextFloat
  let poleTemperature := temperature - f2.1 * 50
  let planet0 : UniversePlanet :=
    { seed := planetSeed
      position := [planetDistanceAu, 0, 0]
      starDistance := planetDistanceAu
      isInHz := isInHz
      mass := mass
      mu := mu
      temperature := temperature
      equatorTemperature := equatorTemperature
      poleTemperature := poleTemperature }
  let typeIndex := getPlanetTypeIndex planet0 hz1 hz5
  let f3 := f2.2.nextFloat
  let radius := (Rearth_min.getD typeIndex.toNat 0 +
    f3.1 * (Rearth_max.getD typeIndex.toNat 0 - Rearth_min.getD typeIndex.toNat 0)) * Rearth
  let day := 2 * F.rpi * radius
  let year := F.rsqrt (F.rpow planetDistanceAu 3) * yearEarth
  let atm := createAtmosphere fuel typeIndex radius f3.2
  ({ planet0 with
      typeIndex := typeIndex
      radius := radius
      day := day
      year := year
      atmosphere := atm.1 },
   upperLimitAu, atm.2)

/-- One accretion step of the genPlanets loop: the lower limit entering the
step, the chosen distance, the upper limit leaving the step, and the planet
generated for the band. -/
structure AccretionStep where
  lowerLimitAu : ℚ
  planetDistanceAu : ℚ
  upperLimitAu : ℚ
  planet : UniversePlanet
  deriving DecidableEq

/-- Loop of genPlanets over the planet seeds, threading the member generator
state, the running lower limit and the previous distance. -/
def genPlanetsAux (F : RealFns) (fuel : Nat) (star : UniverseStar) :
    List Nat → Pcg32 → ℚ → ℚ → List AccretionStep
  | [], _, _, _ => []
  | seed :: rest, rng, lower, dist =>
    let dr := nextPlanetDistance rng star.frostLimitAu lower dist
    let pr := genPlanet F fuel dr.2 seed star dr.1 lower
    { lowerLimitAu := lower, planetDistanceAu := dr.1, upperLimitAu := pr.2.1,
      planet := pr.1 } ::
      genPlanetsAux F fuel star rest pr.2.2 pr.2.1 dr.1

/-- genPlanets: reseeds the member generator with the star seed, derives the
planet seeds from it, and runs the accretion loop starting from lower limit
0 and previous distance 0. -/
def genPlanets (F : RealFns) (fuel : Nat) (cfg : GalaxyConfig) (rng0 : Pcg32)
    (starSeed : Nat) (star : UniverseStar) : List AccretionStep :=
  let rng := Pcg32.reseed rng0 starSeed
  genPlanetsAux F fuel star (getPlanetSeeds starSeed star.planetsCount) rng 0 0

/-- The per-star generation chain: genStar followed by genPlanets on the
member generator state genStar left behind. -/
def genStarChain (F : RealFns) (fuel : Nat) (cfg : GalaxyConfig) (rng : Pcg32)
    (starSeed : Nat) : UniverseStar × List AccretionStep :=
  let sr := genStar F cfg rng starSeed
  (sr.1, genPlanets F fuel cfg sr.2 starSeed sr.1)

/-! Theorems for the claims. -/

/-- Stream family all of whose draws are zero; a concrete pcg32 behaviour
used to instantiate universally quantified results. -/
def zeroAlgo : PcgAlgo :=
  ⟨fun _ _ => 0, fun _ _ => 0, fun _ _ => 0⟩

/-- Real-function instance mapping everything to zero; a concrete
instantiation of the abstracted transcendental functions. -/
def zeroFns : RealFns :=
  ⟨fun _ => 0, fun _ => 0, fun _ _ => 0, 0⟩

/-- Claim C1: for every galaxy seed set via setGalaxySeed and identical
configuration, running the generation chain twice (genStar on the same star
seed, genPlanets/genPlanet on the same star and planet seeds) produces
bit-identical entity attributes.  Stated as: the per-star generation chain
is a function of the star seed alone — its result is independent of the
member generator state (seed and draw position) left behind by any earlier
activity, because genStar, genPlanet and genPlanets each reseed the
generator before drawing. -/
theorem c1_generation_deterministic (F : RealFns) (fuel : Nat) (cfg : GalaxyConfig)
    (A : PcgAlgo) (s1 i1 s2 i2 starSeed : Nat) :
    genStarChain F fuel cfg ⟨A, s1, i1⟩ starSeed =
      genStarChain F fuel cfg ⟨A, s2, i2⟩ starSeed := rfl

/-- Claim C9: getPlanetHabitability evaluates the atmosphere gate at the
fixed default pressure 1.0; two planets identical except for the stored
atmospheric pressure get the same habitability. -/
theorem c9_pressure_noninterference (F : RealFns) (planet : UniversePlanet) (x : ℚ) :
    getPlanetHabitability F
        { planet with atmosphere := { planet.atmosphere with pressure := x } } =
      getPlanetHabitability F planet := rfl

/-- Claim C10 (as amended is not needed; direct): planetsCount is drawn via
nextUInt 8, hence below 8, and the MAX_PLANETS configuration value is never
read by the generation chain: changing it changes neither the star nor the
planets. -/
theorem c10_planet_count_cap (F : RealFns) (fuel : Nat) (cfg : GalaxyConfig)
    (m : Int) (A : PcgAlgo) (s i starSeed : Nat) :
    genStarChain F fuel { cfg with MAX_PLANETS := m } ⟨A, s, i⟩ starSeed =
        genStarChain F fuel cfg ⟨A, s, i⟩ starSeed ∧
      (genStar F cfg ⟨A, s, i⟩ starSeed).1.planetsCount < 8 := by
  constructor
  · rfl
  · exact Nat.mod_lt _ (by norm_num)

/-- Claim C5, counterexample: the second genSystem call for the same seed is
not a cache hit — it consumes four stochastic draws again (its local
generator ends at draw index 4, not 0), although the systems map already
holds the entry from the first call. -/
theorem c5_second_call_resamples_counterexample :
    (genSystem {} zeroAlgo (genSystem {} zeroAlgo [] 42).2.1 42).2.2.idx = 4 ∧
      ¬ (genSystem {} zeroAlgo (genSystem {} zeroAlgo [] 42).2.1 42).2.2.idx = 0 := by
  refine ⟨rfl, fun h => ?_⟩
  have h4 : (genSystem {} zeroAlgo (genSystem {} zeroAlgo [] 42).2.1 42).2.2.idx = 4 := rfl
  rw [h4] at h
  norm_num at h

/-- Claim C5, amended: calling genSystem twice with the same system seed
returns equal results, but genSystem is not memoized — every call, the
second included, re-runs the stochastic sampling (four draws from a fresh
generator seeded with the system seed) and overwrites the map entry. -/
theorem c5_idempotent_not_memoized (cfg : GalaxyConfig) (A : PcgAlgo)
    (systems : List (Nat × UniverseSystem)) (seed : Nat) :
    (genSystem cfg A (genSystem cfg A systems seed).2.1 seed).1 =
        (genSystem cfg A systems seed).1 ∧
      (genSystem cfg A systems seed).2.2.idx = 4 ∧
      (genSystem cfg A (genSystem cfg A systems seed).2.1 seed).2.2.idx = 4 :=
  ⟨rfl, rfl, rfl⟩

/-- Unfolding of the inward branch of the distance selection step. -/
theorem nextPlanetDistance_inward (rng : Pcg32) (frostLimitAu lowerLimitAu prevDistanceAu : ℚ)
    (h : lowerLimitAu < frostLimitAu) :
    nextPlanetDistance rng frostLimitAu lowerLimitAu prevDistanceAu =
      (lowerLimitAu + 0.1 + (rng.nextFloat).1 * (frostLimitAu - lowerLimitAu),
        (rng.nextFloat).2) := by
  rw [nextPlanetDistance, if_pos h]

/-- Unfolding of the outward branch of the distance selection step. -/
theorem nextPlanetDistance_outward (rng : Pcg32) (frostLimitAu lowerLimitAu prevDistanceAu : ℚ)
    (h : ¬ lowerLimitAu < frostLimitAu) :
    nextPlanetDistance rng frostLimitAu lowerLimitAu prevDistanceAu =
      (if prevDistanceAu * (1.5 + (rng.nextFloat).1) ≤ lowerLimitAu then
          prevDistanceAu * (1.5 + (rng.nextFloat).1) + lowerLimitAu
        else prevDistanceAu * (1.5 + (rng.nextFloat).1),
        (rng.nextFloat).2) := by
  rw [nextPlanetDistance, if_neg h]

/-- Claim C6, counterexample: with lower limit 0 and frost limit 0.05 the
inward branch is taken (0 < 0.05), yet even a zero draw gives distance
0 + 0.1 + 0 = 0.1, which exceeds the frost limit — refuting the claim that
the drawn distance never exceeds the frost limit. -/
theorem c6_distance_exceeds_frost_counterexample :
    (0 : ℚ) < 1 / 20 ∧
      (nextPlanetDistance ⟨zeroAlgo, 0, 0⟩ (1 / 20) 0 0).1 = 1 / 10 ∧
      1 / 20 < (nextPlanetDistance ⟨zeroAlgo, 0, 0⟩ (1 / 20) 0 0).1 := by
  have hz : (⟨zeroAlgo, 0, 0⟩ : Pcg32).nextFloat.1 = 0 := rfl
  refine ⟨by norm_num, ?_, ?_⟩ <;>
    · rw [nextPlanetDistance_inward _ _ _ _ (by norm_num), hz]
      norm_num

/-- Claim C6, amended: when the running lower bound is below the frost
limit, the distance is lowerLimit + 0.1 + u x (frostLimit - lowerLimit) for
the uniform draw u in [0,1) — always above the lower bound but possibly
beyond the frost limit by up to 0.1; otherwise the previous distance is
multiplied by the factor 1.5 + u (always at least 1.5), and the lower bound
is added when the product does not pass it. -/
theorem c6_placement_amended (A : PcgAlgo) (s i : Nat)
    (frostLimitAu lowerLimitAu prevDistanceAu : ℚ)
    (h0 : 0 ≤ A.floats s i) (h1 : A.floats s i < 1) :
    (lowerLimitAu < frostLimitAu →
      (nextPlanetDistance ⟨A, s, i⟩ frostLimitAu lowerLimitAu prevDistanceAu).1 =
          lowerLimitAu + 0.1 + A.floats s i * (frostLimitAu - lowerLimitAu) ∧
        lowerLimitAu <
          (nextPlanetDistance ⟨A, s, i⟩ frostLimitAu lowerLimitAu prevDistanceAu).1 ∧
        (nextPlanetDistance ⟨A, s, i⟩ frostLimitAu lowerLimitAu prevDistanceAu).1 <
          frostLimitAu + 0.1) ∧
    (¬ lowerLimitAu < frostLimitAu →
      (nextPlanetDistance ⟨A, s, i⟩ frostLimitAu lowerLimitAu prevDistanceAu).1 =
          (if prevDistanceAu * (1.5 + A.floats s i) ≤ lowerLimitAu then
            prevDistanceAu * (1.5 + A.floats s i) + lowerLimitAu
          else prevDistanceAu * (1.5 + A.floats s i)) ∧
        (3 / 2 : ℚ) ≤ 1.5 + A.floats s i) := by
  constructor
  · intro hlt
    rw [nextPlanetDistance_inward _ _ _ _ hlt]
    have hg : (0 : ℚ) < frostLimitAu - lowerLimitAu := by linarith
    have hu : (⟨A, s, i⟩ : Pcg32).nextFloat.1 = A.floats s i := rfl
    rw [hu]
    refine ⟨rfl, ?_, ?_⟩
    · nlinarith [mul_nonneg h0 hg.le]
    · nlinarith [mul_lt_mul_of_pos_right h1 hg]
  · intro hge
    rw [nextPlanetDistance_outward _ _ _ _ hge]
    have hu : (⟨A, s, i⟩ : Pcg32).nextFloat.1 = A.floats s i := rfl
    rw [hu]
    exact ⟨rfl, by linarith⟩

/-- Claim C6, witness for the amended theorem at a concrete input. -/
theorem c6_placement_amended_witness :
    ((0 : ℚ) ≤ zeroAlgo.floats 0 0 ∧ zeroAlgo.floats 0 0 < 1 ∧ (0 : ℚ) < 1) ∧
      (0 : ℚ) < (nextPlanetDistance ⟨zeroAlgo, 0, 0⟩ 1 0 0).1 :=
  ⟨⟨by decide, by decide, by norm_num⟩,
    ((c6_placement_amended zeroAlgo 0 0 1 0 0 (by decide) (by decide)).1
      (by norm_num)).2.1⟩

/-- Claim C7, counterexample: the habitability loop body never runs for an
empty composition, so the initial probability 1.0 is returned — not the 0
the claim requires for a composition with no oxygen at all. -/
theorem c7_empty_composition_counterexample :
    atmosphereHabitability [] 1 = 1 ∧ ¬ atmosphereHabitability [] 1 = 0 := by
  refine ⟨rfl, fun h => ?_⟩
  simp only [atmosphereHabitability, atmosphereHabitabilityAux] at h
  norm_num at h

/-- Value of the habitability loop: starting from any probability, the
result is zero exactly when some visited element fails a partial pressure
or oxygen check, or the oxygen-presence test (run once per visited element)
fails on a nonempty visited list; otherwise the starting probability
survives. -/
theorem atmosphereHabitabilityAux_eq (composition : List (String × ℚ)) (pressure : ℚ)
    (prob : ℚ) (l : List (String × ℚ)) :
    atmosphereHabitabilityAux composition pressure prob l =
      if (l ≠ [] ∧ mapContains composition "O2" = false) ∨
          ∃ gv ∈ l, (mapGetD ppMaxGas gv.1 0 < gv.2 * pressure ∨
            (gv.1 = "O2" ∧ gv.2 * pressure < 0.16)) then 0 else prob := by
  induction l generalizing prob with
  | nil => simp [atmosphereHabitabilityAux]
  | cons hd tl ih =>
    obtain ⟨gas, val⟩ := hd
    simp only [atmosphereHabitabilityAux]
    rw [ih]
    by_cases hO2 : mapContains composition "O2" = false
    · simp [hO2, List.exists_mem_cons_iff]
    · by_cases hpp : mapGetD ppMaxGas gas 0 < val * pressure
      · simp [hO2, hpp, gt_iff_lt, List.exists_mem_cons_iff]
      · by_cases hox : gas = "O2" ∧ val * pressure < 0.16
        · simp [hO2, hpp, hox, gt_iff_lt, List.exists_mem_cons_iff]
        · simp only [gt_iff_lt, if_neg hpp, if_neg hox,
            if_neg (fun h => hO2 h)]
          refine if_congr ?_ rfl rfl
          simp [List.exists_mem_cons_iff, hO2, hpp, hox]

/-- Claim C7, amended: atmosphereHabitability returns 0 when some gas
exceeds its maximum partial pressure, when oxygen is present below 0.16
partial pressure, or when a nonempty composition has no oxygen; the empty
composition returns 1.0 (the loop body never runs), and otherwise the
result is exactly 1.0. -/
theorem c7_habitability_gate_amended (composition : List (String × ℚ)) (pressure : ℚ) :
    atmosphereHabitability composition pressure =
      if (composition ≠ [] ∧ mapContains composition "O2" = false) ∨
          ∃ gv ∈ composition, (mapGetD ppMaxGas gv.1 0 < gv.2 * pressure ∨
            (gv.1 = "O2" ∧ gv.2 * pressure < 0.16)) then 0 else 1 :=
  atmosphereHabitabilityAux_eq composition pressure 1 composition

/-- The gate of createAtmosphere: a draw above the type's maximum
probability returns the empty atmosphere. -/
theorem createAtmosphere_gate (fuel : Nat) (typeIndex : Int) (planetRadius : ℚ)
    (rnd : Pcg32)
    (h : (rnd.nextFloat).1 > atmosphereProbabilityMax.getD typeIndex.toNat 0) :
    (createAtmosphere fuel typeIndex planetRadius rnd).1 = {} := by
  simp only [createAtmosphere, if_pos h]

/-- Passing the gate with a column above 3 (gas giant) gives an atmosphere
radius equal to the planet radius. -/
theorem createAtmosphere_giant_radius (fuel : Nat) (typeIndex : Int) (planetRadius : ℚ)
    (rnd : Pcg32)
    (h : ¬ (rnd.nextFloat).1 > atmosphereProbabilityMax.getD typeIndex.toNat 0)
    (hcol : ¬ getPeriodicTypeColumn typeIndex ≤ 3) :
    (createAtmosphere fuel typeIndex planetRadius rnd).1.radius = planetRadius := by
  simp only [createAtmosphere, if_neg h, if_neg hcol]

set_option maxRecDepth 8000 in
/-- Claim C8, counterexample: a mercurial planet (type index 0, column 0)
whose probability draw is exactly 0 passes the gate (0 is not greater than
the tabulated maximum 0) and receives an atmosphere of positive radius
1000 x 1.01 = 1010 — refuting the claim that every draw yields radius 0. -/
theorem c8_mercurial_zero_draw_counterexample :
    (createAtmosphere 5 0 1000 ⟨zeroAlgo, 0, 0⟩).1.radius = 1010 ∧
      ¬ (createAtmosphere 5 0 1000 ⟨zeroAlgo, 0, 0⟩).1.radius = 0 := by
  have h2 : (createAtmosphere 5 0 1000 ⟨zeroAlgo, 0, 0⟩).1.radius = 1010 := by
    with_unfolding_all rfl
  refine ⟨h2, fun h => ?_⟩
  rw [h2] at h
  norm_num at h

/-- Claim C8, amended: for a gas-giant column (at least 4) every draw in
[0,1) passes the gate (maximum probability 1.0) and the atmosphere radius
equals the planet radius; for a mercurial column (0, maximum probability
0.0) every strictly positive draw fails the gate and the radius is 0 — a
draw of exactly 0 passes the gate instead. -/
theorem c8_atmosphere_by_class_amended (fuel : Nat) (A : PcgAlgo) (s i : Nat)
    (t : Int) (r : ℚ) (hlo : 0 ≤ t) (hhi : t ≤ 17) (h1 : A.floats s i < 1) :
    (4 ≤ t % 6 → (createAtmosphere fuel t r ⟨A, s, i⟩).1.radius = r) ∧
      (t % 6 = 0 → 0 < A.floats s i →
        (createAtmosphere fuel t r ⟨A, s, i⟩).1.radius = 0) := by
  have hf : ((⟨A, s, i⟩ : Pcg32).nextFloat).1 = A.floats s i := rfl
  constructor
  · intro hcol
    have ht : t = 4 ∨ t = 5 ∨ t = 10 ∨ t = 11 ∨ t = 16 ∨ t = 17 := by omega
    have hmax1 : atmosphereProbabilityMax.getD t.toNat 0 = 1 := by
      rcases ht with h | h | h | h | h | h <;> subst h <;> with_unfolding_all decide
    have hcolgt : ¬ getPeriodicTypeColumn t ≤ 3 := by
      rcases ht with h | h | h | h | h | h <;> subst h <;> decide
    apply createAtmosphere_giant_radius
    · rw [hf, hmax1]
      exact not_lt.mpr h1.le
    · exact hcolgt
  · intro hcol hpos
    have ht : t = 0 ∨ t = 6 ∨ t = 12 := by omega
    have hmax0 : atmosphereProbabilityMax.getD t.toNat 0 = 0 := by
      rcases ht with h | h | h <;> subst h <;> with_unfolding_all decide
    have hempty := createAtmosphere_gate fuel t r ⟨A, s, i⟩ (by rw [hf, hmax0]; exact hpos)
    rw [hempty]

/-- Claim C8, witness for the amended theorem at a concrete input. -/
theorem c8_atmosphere_by_class_amended_witness :
    ((0 : Int) ≤ 4 ∧ (4 : Int) ≤ 17 ∧ zeroAlgo.floats 0 0 < 1 ∧ (4 : Int) ≤ 4 % 6) ∧
      (createAtmosphere 5 4 7 ⟨zeroAlgo, 0, 0⟩).1.radius = 7 :=
  ⟨⟨by norm_num, by norm_num, by decide, by decide⟩,
    (c8_atmosphere_by_class_amended 5 zeroAlgo 0 0 4 7 (by norm_num) (by norm_num)
      (by decide)).1 (by decide)⟩

/-- Float stream for the claim C2 failing input: draws 0 on the first three
iterations and 1/2 afterwards. -/
def c2floats : Nat → Nat → ℚ := fun _ i => if 6 ≤ i then 1 / 2 else 0

/-- Uint stream for the claim C2 failing input: picks component index 3
(oxygen) on the second iteration and component 0 of the run's range
otherwise (carbon dioxide, then helium repeatedly). -/
def c2uints : Nat → Nat → Nat := fun _ i => if i = 2 then 1 else 0

def c2Algo : PcgAlgo := ⟨c2floats, fun _ _ => 0, c2uints⟩

set_option maxRecDepth 4000 in
/-- Evaluation of the composition loop on the claim C2 failing stream, one
iteration at a time: CO2 (share 0.579), O2 (0.126), then He four times with
the repeated picks overwriting the stored share, until the running total
reaches exactly 1.0 and the loop exits. -/
theorem c2_composition_eval :
    createCompositionAux ⟨c2Algo, 0, 0⟩ [] 0 0 10 =
      ([("CO2", 579 / 1000), ("O2", 63 / 500), ("He", 353 / 5000)], 1,
        ⟨c2Algo, 0, 12⟩) := by
  with_unfolding_all rfl

/-- Claim C2, code bug: on the failing stream the branch on an existing
component overwrites instead of accumulating (the count test and its
comment are inverted in the source), so the stored He share ends at 0.0706
while the loop's running total reaches exactly 1.0 and exits.  The map sum
is 0.7756, off from 1.0 by far more than the 1e-4 tolerance the claim (and
the spec invariant) require. -/
theorem c2_composition_sum_code_bug :
    compSum (createComposition 10 [] ⟨c2Algo, 0, 0⟩) = 7756 / 10000 ∧
      (createCompositionAux ⟨c2Algo, 0, 0⟩ [] 0 0 10).2.1 = 1 ∧
      1 / 10000 < |1 - compSum (createComposition 10 [] ⟨c2Algo, 0, 0⟩)| := by
  have h : compSum (createComposition 10 [] ⟨c2Algo, 0, 0⟩) = 7756 / 10000 := by
    rw [createComposition, c2_composition_eval]
    norm_num [compSum]
  refine ⟨h, ?_, ?_⟩
  · rw [c2_composition_eval]
  · rw [h, abs_of_pos (by norm_num : (0 : ℚ) < 1 - 7756 / 10000)]
    norm_num

/-- The upper limit genPlanet hands back through the by-reference parameter
is distance + distance - lowerLimit. -/
theorem genPlanet_upper (F : RealFns) (fuel : Nat) (rng : Pcg32) (seed : Nat)
    (star : UniverseStar) (d lower : ℚ) :
    (genPlanet F fuel rng seed star d lower).2.1 = d + d - lower := rfl

/-- The planet mass genPlanet computes is the local mass density times the
width of the accretion band. -/
theorem genPlanet_mass (F : RealFns) (fuel : Nat) (rng : Pcg32) (seed : Nat)
    (star : UniverseStar) (d lower : ℚ) :
    (genPlanet F fuel rng seed star d lower).1.mass =
      getStarMassDensity F star.mass star.frostLimitAu d * ((d + d - lower) - lower) := rfl

/-- One-step unfolding of the genPlanets loop. -/
theorem genPlanetsAux_cons (F : RealFns) (fuel : Nat) (star : UniverseStar)
    (seed : Nat) (rest : List Nat) (rng : Pcg32) (lower dist : ℚ) :
    genPlanetsAux F fuel star (seed :: rest) rng lower dist =
      { lowerLimitAu := lower
        planetDistanceAu := (nextPlanetDistance rng star.frostLimitAu lower dist).1
        upperLimitAu := (genPlanet F fuel (nextPlanetDistance rng star.frostLimitAu lower dist).2
          seed star (nextPlanetDistance rng star.frostLimitAu lower dist).1 lower).2.1
        planet := (genPlanet F fuel (nextPlanetDistance rng star.frostLimitAu lower dist).2
          seed star (nextPlanetDistance rng star.frostLimitAu lower dist).1 lower).1 } ::
        genPlanetsAux F fuel star rest
          (genPlanet F fuel (nextPlanetDistance rng star.frostLimitAu lower dist).2
            seed star (nextPlanetDistance rng star.frostLimitAu lower dist).1 lower).2.2
          (genPlanet F fuel (nextPlanetDistance rng star.frostLimitAu lower dist).2
            seed star (nextPlanetDistance rng star.frostLimitAu lower dist).1 lower).2.1
          (nextPlanetDistance rng star.frostLimitAu lower dist).1 := rfl

/-- Invariant of the genPlanets loop: every generated step satisfies the
band equations, the first step starts at the incoming lower limit, and
consecutive steps are contiguous. -/
theorem genPlanetsAux_bands (F : RealFns) (fuel : Nat) (star : UniverseStar) :
    ∀ (seeds : List Nat) (rng : Pcg32) (lower dist : ℚ),
      (∀ st ∈ genPlanetsAux F fuel star seeds rng lower dist,
          st.upperLimitAu = 2 * st.planetDistanceAu - st.lowerLimitAu ∧
          st.planet.mass = getStarMassDensity F star.mass star.frostLimitAu
            st.planetDistanceAu * (st.upperLimitAu - st.lowerLimitAu)) ∧
      (∀ st, (genPlanetsAux F fuel star seeds rng lower dist).head? = some st →
        st.lowerLimitAu = lower) ∧
      List.Chain' (fun a b => b.lowerLimitAu = a.upperLimitAu)
        (genPlanetsAux F fuel star seeds rng lower dist) := by
  intro seeds
  induction seeds with
  | nil =>
    intro rng lower dist
    refine ⟨?_, ?_, ?_⟩ <;> simp [genPlanetsAux]
  | cons seed rest ih =>
    intro rng lower dist
    rw [genPlanetsAux_cons]
    refine ⟨?_, ?_, ?_⟩
    · intro st hst
      rcases List.mem_cons.mp hst with h | h
      · subst h
        refine ⟨?_, ?_⟩
        · simp only [genPlanet_upper]
          ring
        · simp only [genPlanet_mass, genPlanet_upper]
      · exact (ih _ _ _).1 st h
    · intro st hst
      injection hst with h
      subst h
      rfl
    · refine List.chain'_cons'.mpr ⟨?_, (ih _ _ _).2.2⟩
      intro y hy
      exact (ih _ _ _).2.1 y (Option.mem_def.mp hy)

/-- Claim C3: for every star, the mass-accretion bands of genPlanets are
contiguous and non-overlapping — the first band starts at lower limit 0,
each band satisfies upperLimit = 2 x distance - lowerLimit, the planet mass
is the local mass density times the band width, and each band's lower limit
is the previous band's upper limit. -/
theorem c3_band_contiguity (F : RealFns) (fuel : Nat) (cfg : GalaxyConfig)
    (A : PcgAlgo) (s i starSeed : Nat) (star : UniverseStar) :
    (∀ st ∈ genPlanets F fuel cfg ⟨A, s, i⟩ starSeed star,
        st.upperLimitAu = 2 * st.planetDistanceAu - st.lowerLimitAu ∧
        st.planet.mass = getStarMassDensity F star.mass star.frostLimitAu
          st.planetDistanceAu * (st.upperLimitAu - st.lowerLimitAu)) ∧
    (∀ st, (genPlanets F fuel cfg ⟨A, s, i⟩ starSeed star).head? = some st →
      st.lowerLimitAu = 0) ∧
    List.Chain' (fun a b => b.lowerLimitAu = a.upperLimitAu)
      (genPlanets F fuel cfg ⟨A, s, i⟩ starSeed star) :=
  genPlanetsAux_bands F fuel star (getPlanetSeeds starSeed star.planetsCount) _ 0 0

/-- Star used to instantiate the claim C3 theorem concretely. -/
def c3Star : UniverseStar :=
  { planetsCount := 2, frostLimitAu := 1 }

/-- Claim C3, witness at a concrete input. -/
theorem c3_band_contiguity_witness :
    List.Chain' (fun a b => b.lowerLimitAu = a.upperLimitAu)
      (genPlanets zeroFns 2 {} ⟨zeroAlgo, 0, 0⟩ 7 c3Star) :=
  (c3_band_contiguity zeroFns 2 {} zeroAlgo 0 0 7 c3Star).2.2

/-- The CDF loop's index stays below the starting index plus the list
length for a nonempty list (the last position survives when no bound
matches). -/
theorem getRndCdfIdxAux_lt (rn : ℚ) :
    ∀ (l : List ℚ) (i : Nat), l ≠ [] → getRndCdfIdxAux rn i l < i + l.length := by
  intro l
  induction l with
  | nil => intro i h; exact absurd rfl h
  | cons ub rest ih =>
    intro i _
    cases rest with
    | nil => simp [getRndCdfIdxAux]
    | cons x xs =>
      simp only [getRndCdfIdxAux, List.length_cons]
      split
      · omega
      · have h := ih (i + 1) (by simp)
        simp only [List.length_cons] at h
        omega

/-- Random CDF index bound: for a nonempty table the index is below the
table length. -/
theorem getRndCdfIdx_lt (rn : ℚ) (cdf : List ℚ) (h : cdf ≠ []) :
    getRndCdfIdx rn cdf < cdf.length := by
  simpa [getRndCdfIdx] using getRndCdfIdxAux_lt rn cdf 0 h

/-- The mass-category fold of getPlanetTypeIndex lands in [0, 5]. -/
theorem massIdxFold_bounds (mRel : ℚ) :
    0 ≤ massIdxFold mRel ∧ massIdxFold mRel ≤ 5 := by
  rw [massIdxFold, show List.range 6 = [0, 1, 2, 3, 4, 5] from rfl]
  simp only [List.foldl]
  split_ifs <;> norm_num

/-- The planet type index combines a zone index in {0, 6, 12} and a mass
index in [0, 5]. -/
theorem getPlanetTypeIndex_bounds (planet : UniversePlanet) (hzMinAu hzMaxAu : ℚ) :
    0 ≤ getPlanetTypeIndex planet hzMinAu hzMaxAu ∧
      getPlanetTypeIndex planet hzMinAu hzMaxAu ≤ 17 := by
  have h := massIdxFold_bounds (planet.mass / Mearth)
  simp only [getPlanetTypeIndex]
  split_ifs <;> omega

/-- Entry 0 of the habitable zone array is the unused value 0. -/
theorem habitableZoneComplete_head (F : RealFns) (tEff lumStar : ℚ) :
    (habitableZoneComplete F tEff lumStar).head? = some 0 := rfl

/-- All habitable zone distances are non-negative, given non-negative
luminosity and a square root that preserves non-negativity. -/
theorem habitableZoneComplete_nonneg (F : RealFns)
    (hsq : ∀ x, 0 ≤ x → 0 ≤ F.rsqrt x) (tEff lumStar : ℚ) (hl : 0 ≤ lumStar) :
    ∀ d ∈ habitableZoneComplete F tEff lumStar, 0 ≤ d := by
  intro d hd
  rw [habitableZoneComplete] at hd
  rcases List.mem_cons.mp hd with h | h
  · subst h; exact le_refl 0
  · obtain ⟨j, _, hdj⟩ := List.mem_map.mp h
    subst hdj
    rw [hzDistAt]
    split
    · exact le_refl 0
    · exact hsq _ (div_nonneg hl (le_max_right _ 0))

/-- Claim C4: a generated star's type index (from CDF sampling over the
24-entry table) lies in [0, 23]; a planet's type index from
getPlanetTypeIndex lies in [0, 17]; and the habitable-zone distance array
has entry 0 equal to 0 (unused) and all entries non-negative (for
non-negative luminosity and a square root preserving non-negativity). -/
theorem c4_range_bounds (F : RealFns) (cfg : GalaxyConfig) (rng : Pcg32)
    (starSeed : Nat) (planet : UniversePlanet) (hzMinAu hzMaxAu tEff lumStar : ℚ)
    (hsq : ∀ x, 0 ≤ x → 0 ≤ F.rsqrt x) (hl : 0 ≤ lumStar) :
    (genStar F cfg rng starSeed).1.typeIndex ≤ 23 ∧
      (0 ≤ getPlanetTypeIndex planet hzMinAu hzMaxAu ∧
        getPlanetTypeIndex planet hzMinAu hzMaxAu ≤ 17) ∧
      ((habitableZoneComplete F tEff lumStar).head? = some 0 ∧
        ∀ d ∈ habitableZoneComplete F tEff lumStar, 0 ≤ d) := by
  refine ⟨?_, getPlanetTypeIndex_bounds planet hzMinAu hzMaxAu,
    habitableZoneComplete_head F tEff lumStar,
    habitableZoneComplete_nonneg F hsq tEff lumStar hl⟩
  have he : (genStar F cfg rng starSeed).1.typeIndex =
      getRndCdfIdx ((Pcg32.reseed rng starSeed).nextFloat).1 starTypeProbability := rfl
  rw [he]
  have hlen := getRndCdfIdx_lt ((Pcg32.reseed rng starSeed).nextFloat).1
    starTypeProbability (by simp [starTypeProbability])
  rw [show starTypeProbability.length = 24 from rfl] at hlen
  omega

/-- Claim C4, witness at a concrete input. -/
theorem c4_range_bounds_witness :
    ((∀ x, 0 ≤ x → 0 ≤ zeroFns.rsqrt x) ∧ (0 : ℚ) ≤ 1) ∧
      (genStar zeroFns {} ⟨zeroAlgo, 0, 0⟩ 7).1.typeIndex ≤ 23 ∧
      (habitableZoneComplete zeroFns 5780 1).head? = some 0 :=
  ⟨⟨fun _ _ => le_refl 0, by norm_num⟩,
    (c4_range_bounds zeroFns {} ⟨zeroAlgo, 0, 0⟩ 7 {} 0 0 5780 1
      (fun _ _ => le_refl 0) (by norm_num)).1,
    (c4_range_bounds zeroFns {} ⟨zeroAlgo, 0, 0⟩ 7 {} 0 0 5780 1
      (fun _ _ => le_refl 0) (by norm_num)).2.2.1⟩

end Procu
